import Mathlib

/-!
Verification of the `sqlx-paginated` query augmentation engine.

The Rust sources are embedded shallowly: strings are Lean `String`s
(`List Char` underneath), `HashSet`/`HashMap` values are lists (for maps,
the list is the iteration order of the one map instance the code holds),
and `i64` arithmetic is `Int` with Rust's truncating division written
`Int.tdiv`.  External collaborator crates (`serde_json`, `chrono`, `uuid`,
`std::net`) are modelled from their documented parsing grammars; they are
marked as such below.
-/

namespace SqlxPaginated

/-- `pat.isPrefixOfChars hay`: Rust `str::starts_with` at character level. -/
def isPrefixOfChars : List Char → List Char → Bool
  | [], _ => true
  | _ :: _, [] => false
  | p :: ps, c :: cs => p == c && isPrefixOfChars ps cs

/-- Rust `str::contains(pat)`: some suffix of `hay` starts with `pat`. -/
def hasSubChars (hay pat : List Char) : Bool :=
  match hay with
  | [] => pat.isEmpty
  | _ :: rest => isPrefixOfChars pat hay || hasSubChars rest pat

/-- Rust `str::contains` on `String`s. -/
def containsSub (hay pat : String) : Bool :=
  hasSubChars hay.data pat.data

/-- Rust `str::starts_with` on `String`s. -/
def startsWithSub (hay pat : String) : Bool :=
  isPrefixOfChars pat.data hay.data

/-- Rust `str::ends_with` on `String`s. -/
def endsWithSub (hay pat : String) : Bool :=
  isPrefixOfChars pat.data.reverse hay.data.reverse

/-- Rust `str::to_lowercase` (the identifiers and patterns involved are
ASCII, where Unicode lowercasing agrees with ASCII lowercasing). -/
def lowerStr (s : String) : String :=
  ⟨s.data.map Char.toLower⟩

/-- Rust `str::trim` (Unicode whitespace on both ends). -/
def rustTrim (s : String) : String :=
  ⟨(((s.data.dropWhile Char.isWhitespace).reverse.dropWhile Char.isWhitespace).reverse)⟩

/-! ## Column safety validator
`src/paginated_query_as/internal/column_protection_internal.rs` -/

/-- `ColumnProtection`: the three pattern sets.  The Rust `HashSet`s are
modelled as lists; only membership and `any` are ever used. -/
structure ColumnProtection where
  blocked_patterns : List String
  allowed_patterns : List String
  allowed_system_columns : List String
deriving DecidableEq, Repr

/-- `ColumnProtection::new`. -/
def ColumnProtection.new : ColumnProtection :=
  { blocked_patterns := [], allowed_patterns := [], allowed_system_columns := [] }

/-- The pattern list of `ColumnProtection::add_default_blocks`. -/
def defaultBlockedPatterns : List String :=
  ["pg_", "information_schema.", "oid", "tableoid", "xmin", "xmax",
   "cmin", "cmax", "ctid", "pg_catalog", "pg_toast", "pg_temp", "pg_internal"]

/-- `ColumnProtection::default()`: `new` plus `add_default_blocks`. -/
def ColumnProtection.defaultSelf : ColumnProtection :=
  { blocked_patterns := defaultBlockedPatterns
    allowed_patterns := []
    allowed_system_columns := [] }

/-- `ColumnProtection::block_pattern`. -/
def ColumnProtection.block_pattern (p : ColumnProtection) (pat : String) : ColumnProtection :=
  { p with blocked_patterns := p.blocked_patterns ++ [pat] }

/-- `ColumnProtection::allow_pattern`. -/
def ColumnProtection.allow_pattern (p : ColumnProtection) (pat : String) : ColumnProtection :=
  { p with allowed_patterns := p.allowed_patterns ++ [pat] }

/-- `ColumnProtection::allow_system_columns`. -/
def ColumnProtection.allow_system_columns (p : ColumnProtection) (cols : List String) :
    ColumnProtection :=
  { p with allowed_system_columns := p.allowed_system_columns ++ cols }

/-- The structural ("basic safety") check of `ColumnProtection::is_safe`,
stated positively: non-empty, only ASCII alphanumeric/underscore/dot, no
`".."`, no leading dot, no trailing dot. -/
def structuralOk (value : String) : Bool :=
  !value.isEmpty
    && value.data.all (fun c => c.isAlphanum || c == '_' || c == '.')
    && !containsSub value ".."
    && !startsWithSub value "."
    && !endsWithSub value "."

/-- `ColumnProtection::is_safe`, in the source's evaluation order:
explicit system-column allow-list, then allow patterns, then the basic
safety (structural) checks, then the lower-cased block-pattern scan. -/
def ColumnProtection.is_safe (p : ColumnProtection) (value : String) : Bool :=
  if p.allowed_system_columns.contains value then
    true
  else if p.allowed_patterns.any (fun pat => containsSub value pat) then
    true
  else if value.isEmpty
      || !(value.data.all (fun c => c.isAlphanum || c == '_' || c == '.'))
      || containsSub value ".."
      || startsWithSub value "."
      || endsWithSub value "." then
    false
  else
    !(p.blocked_patterns.any (fun pat => containsSub (lowerStr value) pat))

/-! ## Identifier quoting
`src/paginated_query_as/internal/internal_utils.rs` (`quote_identifier`) and
`src/paginated_query_as/internal/dialects/postgres_dialect.rs`. -/

/-- Rust `str::replace('"', "\"\"")`: double every double-quote character. -/
def doubleQ : List Char → List Char
  | [] => []
  | c :: r => if c = '"' then '"' :: '"' :: doubleQ r else c :: doubleQ r

/-- Un-double embedded quote characters (left inverse of `doubleQ`,
written from the spec's description of un-quoting). -/
def undoubleQ : List Char → List Char
  | [] => []
  | [c] => [c]
  | c :: d :: r =>
    if c = '"' && d = '"' then '"' :: undoubleQ r
    else c :: undoubleQ (d :: r)

/-- `format!("\"{}\"", part.replace('"', "\"\""))`. -/
def wrapQ (p : List Char) : List Char := '"' :: (doubleQ p ++ ['"'])

/-- Remove the wrapping quote character from each end (un-quoting step
from the spec's description). -/
def stripWrapQ (p : List Char) : List Char := (p.drop 1).dropLast

/-- Rust `str::split('.')`: every separator splits; empty parts kept. -/
def splitOnDot : List Char → List (List Char)
  | [] => [[]]
  | c :: r =>
    if c = '.' then [] :: splitOnDot r
    else
      match splitOnDot r with
      | [] => [[c]]
      | p :: ps => (c :: p) :: ps

/-- `Vec::join(".")`. -/
def joinDot : List (List Char) → List Char
  | [] => []
  | [p] => p
  | p :: ps => p ++ '.' :: joinDot ps

/-- `quote_identifier` from `internal_utils.rs` at character level:
split on `'.'`, wrap-and-double each part, re-join with `'.'`. -/
def quoteChars (l : List Char) : List Char :=
  joinDot ((splitOnDot l).map wrapQ)

/-- The un-quoting direction, written from the spec's words: per
dot-separated part, remove the wrapping quotes and un-double embedded
quote characters, then re-join. -/
def unquoteChars (l : List Char) : List Char :=
  joinDot ((splitOnDot l).map (fun p => undoubleQ (stripWrapQ p)))

/-- `quote_identifier` (`internal_utils.rs`, the dot-splitting variant). -/
def quote_identifier (identifier : String) : String :=
  ⟨quoteChars identifier.data⟩

/-- Un-quoting for the dot-splitting variant (from the spec's words). -/
def unquote_identifier (identifier : String) : String :=
  ⟨unquoteChars identifier.data⟩

/-! ## Value type-inference heuristic
`src/paginated_query_as/internal/dialects/postgres_dialect_utils.rs`.
The external parsers it calls (`serde_json`, `chrono`, `uuid`,
`std::net`, `from_str` for the numeric types) are collaborator crates,
modelled here from their documented grammars; the models reproduce every
concrete input/output pair of the repository's own unit test suite for
this function. -/

def startsWithChar (s : String) (c : Char) : Bool := s.data.head? == some c

def endsWithChar (s : String) (c : Char) : Bool := s.data.getLast? == some c

def eqIgnoreAsciiCase (a b : String) : Bool :=
  a.data.map Char.toLower == b.data.map Char.toLower

def isAsciiHexDigit (c : Char) : Bool :=
  c.isDigit || ('a' ≤ c && c ≤ 'f') || ('A' ≤ c && c ≤ 'F')

/-- Split a char list at every occurrence of `sep` (empty parts kept). -/
def splitOnChar (sep : Char) : List Char → List (List Char)
  | [] => [[]]
  | c :: r =>
    if c = sep then [] :: splitOnChar sep r
    else
      match splitOnChar sep r with
      | [] => [[c]]
      | p :: ps => (c :: p) :: ps

def digitsToNat : List Char → Nat
  | l => l.foldl (fun acc c => acc * 10 + (c.toNat - '0'.toNat)) 0

/-- Rust signed-integer literal: optional sign, then 1+ decimal digits. -/
def parseSignedDigits (l : List Char) : Option Int :=
  match l with
  | '+' :: rest => if rest ≠ [] && rest.all Char.isDigit then some (digitsToNat rest) else none
  | '-' :: rest => if rest ≠ [] && rest.all Char.isDigit then some (-(digitsToNat rest : Int)) else none
  | _ => if l ≠ [] && l.all Char.isDigit then some (digitsToNat l) else none

/-- Rust `iN::from_str` modelled: in-range signed decimal literal. -/
def intInRange (lo hi : Int) (s : String) : Bool :=
  match parseSignedDigits s.data with
  | some v => lo ≤ v && v ≤ hi
  | none => false

def dropSign : List Char → List Char
  | '+' :: r => r
  | '-' :: r => r
  | l => l

def splitFirst (sep : Char) : List Char → Option (List Char × List Char)
  | [] => none
  | c :: r =>
    if c = sep then some ([], r)
    else
      match splitFirst sep r with
      | none => none
      | some (a, b) => some (c :: a, b)

def mantissaOk (m : List Char) : Bool :=
  m ≠ [] && m.all (fun c => c.isDigit || c == '.')
    && (m.filter (fun c => c == '.')).length ≤ 1 && m.any Char.isDigit

def expPartOk (e : List Char) : Bool :=
  let e' := dropSign e
  e' ≠ [] && e'.all Char.isDigit

/-- Rust `f32::from_str`/`f64::from_str` grammar (same for both; range
never fails, out-of-range becomes infinity). -/
def floatOk (s : String) : Bool :=
  let l := dropSign s.data
  if l == "inf".data || l == "infinity".data || l == "nan".data then true
  else
    match splitFirst 'e' l with
    | none => mantissaOk l
    | some (m, e) => mantissaOk m && expPartOk e

/-- One IPv4 octet: 1-3 digits, no leading zero, value ≤ 255. -/
def ipv4FieldOk (p : List Char) : Bool :=
  p ≠ [] && p.all Char.isDigit && p.length ≤ 3
    && (match p with
        | '0' :: rest => rest.isEmpty
        | _ => true)
    && digitsToNat p ≤ 255

/-- Rust `Ipv4Addr::from_str`: four dot-separated octets. -/
def ipv4Ok (s : String) : Bool :=
  let parts := splitOnChar '.' s.data
  parts.length == 4 && parts.all ipv4FieldOk

def hexGroupOk (p : List Char) : Bool :=
  p ≠ [] && p.length ≤ 4 && p.all isAsciiHexDigit

def splitFirstDoubleColon : List Char → Option (List Char × List Char)
  | [] => none
  | [_] => none
  | c :: d :: r =>
    if c = ':' && d = ':' then some ([], r)
    else
      match splitFirstDoubleColon (d :: r) with
      | none => none
      | some (a, b) => some (c :: a, b)

/-- Group count of a colon-separated side; the last group may be an
embedded IPv4 address (counting as two groups).  Returns `none` when a
group is invalid. -/
def ipv6SideCount (allowV4Last : Bool) (side : List Char) : Option Nat :=
  if side.isEmpty then some 0
  else
    let parts := splitOnChar ':' side
    let rec check : List (List Char) → Option Nat
      | [] => some 0
      | [p] =>
        if hexGroupOk p then some 1
        else if allowV4Last && ipv4Ok ⟨p⟩ then some 2
        else none
      | p :: rest =>
        if hexGroupOk p then (check rest).map (· + 1) else none
    check parts

/-- Rust `Ipv6Addr::from_str` modelled: hex groups separated by `:`,
at most one `::`, optional embedded IPv4 in the final group. -/
def ipv6Ok (s : String) : Bool :=
  let l := s.data
  if !(l.contains ':') then false
  else
    match splitFirstDoubleColon l with
    | none =>
      match ipv6SideCount true l with
      | some n => n == 8
      | none => false
    | some (left, right) =>
      if right.contains ':' && (splitFirstDoubleColon right).isSome then false
      else
        match ipv6SideCount false left, ipv6SideCount true right with
        | some nl, some nr => nl + nr ≤ 7
        | _, _ => false

def uuidHyphenPattern (l : List Char) : Bool :=
  let parts := splitOnChar '-' l
  parts.map List.length == [8, 4, 4, 4, 12]
    && parts.all (fun p => p.all isAsciiHexDigit)

/-- `uuid::Uuid::parse_str`: simple, hyphenated, urn, or braced form. -/
def uuidOk (s : String) : Bool :=
  let l := s.data
  if l.length == 32 && l.all isAsciiHexDigit then true
  else if isPrefixOfChars "urn:uuid:".data l then uuidHyphenPattern (l.drop 9)
  else
    match l with
    | '{' :: rest =>
      (match rest.getLast? with
       | some '}' => uuidHyphenPattern rest.dropLast
       | _ => false)
    | _ => uuidHyphenPattern l

def isLeapYear (y : Nat) : Bool :=
  (y % 4 == 0 && y % 100 != 0) || y % 400 == 0

def daysInMonth (y m : Nat) : Nat :=
  if m == 2 then (if isLeapYear y then 29 else 28)
  else if m == 4 || m == 6 || m == 9 || m == 11 then 30
  else 31

def fieldNat (maxLen : Nat) (p : List Char) : Option Nat :=
  if p ≠ [] && p.length ≤ maxLen && p.all Char.isDigit then some (digitsToNat p) else none

/-- chrono `NaiveDate::parse_from_str(value, "%Y-%m-%d")` modelled:
4-digit year, 1-2 digit month and day, real calendar date. -/
def naiveDateOk (s : String) : Bool :=
  match splitOnChar '-' s.data with
  | [y, m, d] =>
    (match fieldNat 4 y, fieldNat 2 m, fieldNat 2 d with
     | some yv, some mv, some dv =>
       y.length == 4 && 1 ≤ mv && mv ≤ 12 && 1 ≤ dv && dv ≤ daysInMonth yv mv
     | _, _, _ => false)
  | _ => false

/-- chrono `NaiveTime::parse_from_str(value, "%H:%M:%S")` modelled. -/
def naiveTimeOk (s : String) : Bool :=
  match splitOnChar ':' s.data with
  | [h, m, sec] =>
    (match fieldNat 2 h, fieldNat 2 m, fieldNat 2 sec with
     | some hv, some mv, some sv => hv ≤ 23 && mv ≤ 59 && sv ≤ 60
     | _, _, _ => false)
  | _ => false

/-- chrono `NaiveDateTime::parse_from_str(value, "%Y-%m-%d %H:%M:%S")`
modelled: date, single space, time. -/
def naiveDateTimeOk (s : String) : Bool :=
  match splitFirst ' ' s.data with
  | some (d, t) => naiveDateOk ⟨d⟩ && naiveTimeOk ⟨t⟩
  | none => false

def rfc3339FractionOk (f : List Char) : Bool :=
  f ≠ [] && f.all Char.isDigit

def rfc3339OffsetOk (o : List Char) : Bool :=
  match o with
  | ['z'] => true
  | ['Z'] => true
  | c :: rest =>
    (c == '+' || c == '-')
      && (match splitOnChar ':' rest with
          | [h, m] =>
            (match fieldNat 2 h, fieldNat 2 m with
             | some hv, some mv => h.length == 2 && m.length == 2 && hv ≤ 23 && mv ≤ 59
             | _, _ => false)
          | _ => false)
  | _ => false

def rfc3339TimeOk (t : List Char) : Bool :=
  match splitOnChar ':' t with
  | [h, m, sec] =>
    h.length == 2 && m.length == 2 && h.all Char.isDigit && m.all Char.isDigit
      && digitsToNat h ≤ 23 && digitsToNat m ≤ 59
      && (match splitFirst '.' sec with
          | none => sec.length == 2 && sec.all Char.isDigit && digitsToNat sec ≤ 60
          | some (ss, f) =>
            ss.length == 2 && ss.all Char.isDigit && digitsToNat ss ≤ 60
              && rfc3339FractionOk f)
  | _ => false

/-- chrono `DateTime::parse_from_rfc3339` modelled: date, `T`/`t`
separator, time with optional fraction, `Z`/`z` or `±hh:mm` offset. -/
def rfc3339Ok (s : String) : Bool :=
  match splitFirst 't' s.data with
  | some (d, rest) =>
    naiveDateOk ⟨d⟩
      && (match splitFirst 'z' rest with
          | some (t, []) => rfc3339TimeOk t
          | _ =>
            match splitFirst '+' rest with
            | some (t, o) => rfc3339TimeOk t && rfc3339OffsetOk ('+' :: o)
            | none =>
              match splitFirst '-' rest with
              | some (t, o) => rfc3339TimeOk t && rfc3339OffsetOk ('-' :: o)
              | none => false)
  | none => false

def jsonWs (c : Char) : Bool := c == ' ' || c == '\t' || c == '\n' || c == '\r'

def jsonSkipWs (l : List Char) : List Char := l.dropWhile jsonWs

def jsonStringRest : List Char → Option (List Char)
  | [] => none
  | c :: r =>
    if c = '"' then some r
    else if c = '\\' then
      match r with
      | e :: r' =>
        if e = '"' || e = '\\' || e = '/' || e = 'b' || e = 'f' || e = 'n'
            || e = 'r' || e = 't' then jsonStringRest r'
        else if e = 'u' then
          match r' with
          | a :: b :: cc :: d :: r'' =>
            if isAsciiHexDigit a && isAsciiHexDigit b && isAsciiHexDigit cc
                && isAsciiHexDigit d then jsonStringRest r'' else none
          | _ => none
        else none
      | [] => none
    else if c.toNat < 32 then none
    else jsonStringRest r

def jsonIntPartOk : List Char → Option (List Char)
  | '0' :: r => some r
  | c :: r => if c.isDigit && c ≠ '0' then some (r.dropWhile Char.isDigit) else none
  | [] => none

def jsonNumRest (l : List Char) : Option (List Char) :=
  let l := match l with | '-' :: r => r | _ => l
  match jsonIntPartOk l with
  | none => none
  | some r =>
    let r := match r with
      | '.' :: r' => if r'.head?.any Char.isDigit then (r'.dropWhile Char.isDigit : List Char) else '.' :: r'
      | _ => r
    match r with
    | e :: r' =>
      if e = 'e' || e = 'E' then
        let r'' := match r' with | '+' :: x => x | '-' :: x => x | x => x
        if r''.head?.any Char.isDigit then some (r''.dropWhile Char.isDigit) else none
      else some (e :: r')
    | [] => some []

mutual

def jsonValRest (fuel : Nat) (l : List Char) : Option (List Char) :=
  match fuel with
  | 0 => none
  | fuel + 1 =>
    let l := jsonSkipWs l
    match l with
    | [] => none
    | c :: r =>
      if c = '{' then jsonObjRest fuel r
      else if c = '[' then jsonArrRest fuel r
      else if c = '"' then jsonStringRest r
      else if isPrefixOfChars "true".data l then some (l.drop 4)
      else if isPrefixOfChars "false".data l then some (l.drop 5)
      else if isPrefixOfChars "null".data l then some (l.drop 4)
      else jsonNumRest l

def jsonObjRest (fuel : Nat) (l : List Char) : Option (List Char) :=
  match fuel with
  | 0 => none
  | fuel + 1 =>
    let l := jsonSkipWs l
    match l with
    | '}' :: r => some r
    | _ => jsonObjMembers fuel l

def jsonObjMembers (fuel : Nat) (l : List Char) : Option (List Char) :=
  match fuel with
  | 0 => none
  | fuel + 1 =>
    let l := jsonSkipWs l
    match l with
    | '"' :: r =>
      (match jsonStringRest r with
       | none => none
       | some r' =>
         match jsonSkipWs r' with
         | ':' :: r'' =>
           (match jsonValRest fuel r'' with
            | none => none
            | some r3 =>
              match jsonSkipWs r3 with
              | ',' :: r4 => jsonObjMembers fuel r4
              | '}' :: r4 => some r4
              | _ => none)
         | _ => none)
    | _ => none

def jsonArrRest (fuel : Nat) (l : List Char) : Option (List Char) :=
  match fuel with
  | 0 => none
  | fuel + 1 =>
    match jsonSkipWs l with
    | ']' :: r => some r
    | l' => jsonArrItems fuel l'

def jsonArrItems (fuel : Nat) (l : List Char) : Option (List Char) :=
  match fuel with
  | 0 => none
  | fuel + 1 =>
    match jsonValRest fuel l with
    | none => none
    | some r =>
      match jsonSkipWs r with
      | ',' :: r' => jsonArrItems fuel r'
      | ']' :: r' => some r'
      | _ => none

end

/-- `serde_json::from_str::<serde_json::Value>` validity, modelled as a
fuel-bounded recursive-descent check (fuel: the input length suffices
since every nesting level consumes at least one character). -/
def jsonValid (s : String) : Bool :=
  match jsonValRest (s.data.length + 1) s.data with
  | some rest => (jsonSkipWs rest).isEmpty
  | none => false

/-- `get_postgres_type_casting`
(`internal/dialects/postgres_dialect_utils.rs`): first-match-wins chain
over the trimmed, lower-cased value. -/
def get_postgres_type_casting (value : String) : String :=
  let v := lowerStr (rustTrim value)
  if eqIgnoreAsciiCase v "null" || eqIgnoreAsciiCase v "nan"
      || eqIgnoreAsciiCase v "infinity" || eqIgnoreAsciiCase v "-infinity" then ""
  else if startsWithSub v "\\x" && (v.data.drop 2).all isAsciiHexDigit then "::bytea"
  else if startsWithChar v '{' || startsWithChar v '[' then
    (if jsonValid v then "::jsonb" else "")
  else if startsWithSub v "<?xml" || (startsWithChar v '<' && endsWithChar v '>') then "::xml"
  else if ipv4Ok v || ipv6Ok v then "::inet"
  else if ipv4Ok v then "::inet"
  else if ipv6Ok v then "::inet"
  else if uuidOk v then "::uuid"
  else if naiveDateTimeOk v then "::timestamp without time zone"
  else if naiveDateOk v then "::date"
  else if naiveTimeOk v then "::time"
  else if rfc3339Ok v then "::timestamp with time zone"
  else if v == "t" || v == "f" then "::boolean"
  else if v == "true" || v == "false" then "::boolean"
  else if intInRange (-32768) 32767 v then "::smallint"
  else if intInRange (-2147483648) 2147483647 v then "::integer"
  else if intInRange (-9223372036854775808) 9223372036854775807 v then "::bigint"
  else if floatOk v then "::real"
  else if floatOk v then "::double precision"
  else ""

/-! ## Parameter normalizer
`src/paginated_query_as/internal/deserializers/` — the functions wired
into `QueryPaginationParams` by serde (`models_internal.rs`).  The serde
layer itself (external) is modelled as having already produced the
`Option String` raw value. -/

/-- `extract_digits_from_strings` (`internal_utils.rs`): keep the ASCII
digits. -/
def extract_digits_from_strings (s : String) : String :=
  ⟨s.data.filter Char.isDigit⟩

/-- `DEFAULT_PAGE`.  `const_internal.rs` is not part of the source
snapshot; the value `1` is pinned by the repository's own tests
(`default_page() == 1`) and the spec ("`page` (default 1, ...)"). -/
def DEFAULT_PAGE : Int := 1

/-- Rust `str::parse::<i64>`: optional sign, decimal digits, 64-bit
range. -/
def parseI64 (s : String) : Option Int :=
  match parseSignedDigits s.data with
  | some v =>
    if -9223372036854775808 ≤ v && v ≤ 9223372036854775807 then some v else none
  | none => none

/-- `page_deserialize` (`deserializers/page_deserialize.rs`): absent,
blank or `-`-leading input defaults to `DEFAULT_PAGE`; otherwise the
extracted digits are parsed and floored at `DEFAULT_PAGE`. -/
def page_deserialize : Option String → Int
  | none => DEFAULT_PAGE
  | some s =>
    if (rustTrim s).isEmpty || startsWithSub (rustTrim s) "-" then DEFAULT_PAGE
    else
      match parseI64 (extract_digits_from_strings s) with
      | some digit => if digit < DEFAULT_PAGE then DEFAULT_PAGE else digit
      | none => DEFAULT_PAGE

/-- The older `deserialize_page` (`deserializers_internal.rs`), which
lacks the leading-`-` branch.  It is not referenced by
`QueryPaginationParams`; kept for comparison. -/
def deserialize_page : Option String → Int
  | none => DEFAULT_PAGE
  | some s =>
    if (rustTrim s).isEmpty then DEFAULT_PAGE
    else
      match parseI64 (extract_digits_from_strings s) with
      | some n => if n < DEFAULT_PAGE then DEFAULT_PAGE else n
      | none => DEFAULT_PAGE

/-- Rust `i64::clamp(min, max)` (callers guarantee `min ≤ max`). -/
def i64Clamp (x lo hi : Int) : Int :=
  if x < lo then lo else if x > hi then hi else x

/-- `page_size_deserialize` (`deserializers/page_size_deserialize.rs`),
parameterized over the configured `DEFAULT_MIN_PAGE_SIZE` /
`DEFAULT_MAX_PAGE_SIZE` constants (their definitions live in the absent
`const_internal.rs`; the tests pin min = 10). -/
def page_size_deserialize (minSize maxSize : Int) : Option String → Int
  | none => minSize
  | some s =>
    if (rustTrim s).isEmpty || startsWithSub (rustTrim s) "-" then minSize
    else
      match parseI64 (extract_digits_from_strings s) with
      | some digit => i64Clamp digit minSize maxSize
      | none => minSize

/-- The extracted-digit content of `s` is unparseable or ≤ 0. -/
def extractedNonPositive (s : String) : Bool :=
  match parseI64 (extract_digits_from_strings s) with
  | some n => decide (n ≤ 0)
  | none => true

/-- C4's precondition, written from the claim's words together with its
own parenthetical (digits are extracted from mixed text): the input
denotes no positive page — it is absent, blank, negative (`-`-leading
after trimming), or its extracted digit content is unparseable or ≤ 0. -/
def pageInputNonPositive : Option String → Bool
  | none => true
  | some s =>
    (rustTrim s).isEmpty
      || startsWithSub (rustTrim s) "-"
      || extractedNonPositive s

/-! ## Dialects
`src/paginated_query_as/internal/dialects/` -/

/-- The `QueryDialect` trait: quoting, positional placeholders, casts. -/
structure QueryDialect where
  quote_identifier : String → String
  placeholder : Nat → String
  type_cast : String → String

/-- `PostgresDialect::quote_identifier` (plain wrap-and-double, no dot
splitting). -/
def pgQuoteIdentifier (ident : String) : String :=
  ⟨wrapQ ident.data⟩

/-- Un-quoting for the plain variant (from the spec's words): remove the
wrapper, un-double embedded quotes. -/
def pgUnquoteIdentifier (ident : String) : String :=
  ⟨undoubleQ (stripWrapQ ident.data)⟩

/-- `PostgresDialect`: plain quoting, `$n` placeholders,
`get_postgres_type_casting` casts. -/
def postgresDialect : QueryDialect :=
  { quote_identifier := pgQuoteIdentifier
    placeholder := fun position => "$" ++ toString position
    type_cast := get_postgres_type_casting }

/-- `SqliteDialect`: plain quoting, the repeated `?` placeholder token,
no casts. -/
def sqliteDialect : QueryDialect :=
  { quote_identifier := fun ident => ⟨wrapQ ident.data⟩
    placeholder := fun _ => "?"
    type_cast := fun _ => "" }

/-! ## Query parameters
`src/paginated_query_as/models.rs` and `internal/models_internal.rs`.
Default values for the constants of the absent `const_internal.rs` are
pinned by the repository's own tests (`default_page() == 1`,
`default_page_size() == 10`, default search columns
`["name", "description"]`, default sort column `"created_at"`) and the
builder documentation (date-range column defaults to `"created_at"`).
`DateTime<Utc>` values are opaque to the logic modelled here; they are
represented as `Int` timestamps. -/

inductive QuerySortDirection
  | Ascending
  | Descending
deriving DecidableEq, Repr

structure QueryPaginationParams where
  page : Int
  page_size : Int
deriving DecidableEq, Repr

def QueryPaginationParams.defaultSelf : QueryPaginationParams :=
  { page := 1, page_size := 10 }

structure QuerySortParams where
  sort_direction : QuerySortDirection
  sort_column : String
deriving DecidableEq, Repr

def QuerySortParams.defaultSelf : QuerySortParams :=
  { sort_direction := QuerySortDirection.Descending, sort_column := "created_at" }

structure QuerySearchParams where
  search : Option String
  search_columns : Option (List String)
deriving DecidableEq, Repr

def QuerySearchParams.defaultSelf : QuerySearchParams :=
  { search := none, search_columns := some ["name", "description"] }

structure QueryDateRangeParams where
  date_after : Option Int
  date_before : Option Int
  date_column : Option String
deriving DecidableEq, Repr

def QueryDateRangeParams.defaultSelf : QueryDateRangeParams :=
  { date_after := none, date_before := none, date_column := some "created_at" }

/-- `QueryParams`.  The `filters` `HashMap` is modelled as an
association list: the list order is the iteration order of the single
map instance the params value holds (fixed per instance in Rust). -/
structure QueryParams where
  pagination : QueryPaginationParams
  sort : QuerySortParams
  search : QuerySearchParams
  date_range : QueryDateRangeParams
  filters : List (String × Option String)
deriving DecidableEq, Repr

def QueryParams.defaultSelf : QueryParams :=
  { pagination := QueryPaginationParams.defaultSelf
    sort := QuerySortParams.defaultSelf
    search := QuerySearchParams.defaultSelf
    date_range := QueryDateRangeParams.defaultSelf
    filters := [] }

/-! ## Condition builder
`src/paginated_query_as/builders/query_builder.rs` and the constructors
in `builders/query_builders/`. -/

/-- One bound argument (`PgArguments`/`SqliteArguments` entry): the
builder binds strings and `DateTime<Utc>` timestamps. -/
inductive SqlArg
  | str (value : String)
  | timestamp (value : Int)
deriving DecidableEq, Repr

structure QueryBuilder where
  conditions : List String
  arguments : List SqlArg
  valid_columns : List String
  protection : Option ColumnProtection
  protection_enabled : Bool
  dialect : QueryDialect

/-- `QueryBuilder::<T, Postgres>::new()`.  `get_struct_field_names::<T>`
reflects over the record type through serde (external); the record type
is therefore represented by its serialized field-name list. -/
def QueryBuilder.newPostgres (valid_columns : List String) : QueryBuilder :=
  { conditions := []
    arguments := []
    valid_columns
    protection := some ColumnProtection.defaultSelf
    protection_enabled := true
    dialect := postgresDialect }

/-- `QueryBuilder::<T, Sqlite>::new()`. -/
def QueryBuilder.newSqlite (valid_columns : List String) : QueryBuilder :=
  { conditions := []
    arguments := []
    valid_columns
    protection := some ColumnProtection.defaultSelf
    protection_enabled := true
    dialect := sqliteDialect }

/-- `QueryBuilder::has_column`. -/
def QueryBuilder.has_column (b : QueryBuilder) (column : String) : Bool :=
  b.valid_columns.contains column

/-- `QueryBuilder::is_column_safe`. -/
def QueryBuilder.is_column_safe (b : QueryBuilder) (column : String) : Bool :=
  let column_exists := b.has_column column
  if !b.protection_enabled then column_exists
  else
    match b.protection with
    | some protection => column_exists && protection.is_safe column
    | none => column_exists

/-- `QueryBuilder::with_search`: one OR-combined fragment over the safe
search columns, all comparisons sharing the single placeholder
`arguments.len() + 1`, and one bound copy of the wildcard pattern. -/
def QueryBuilder.with_search (b : QueryBuilder) (params : QueryParams) : QueryBuilder :=
  match params.search.search with
  | none => b
  | some search =>
    match params.search.search_columns with
    | none => b
    | some columns =>
      let valid_search_columns := columns.filter (fun c => b.is_column_safe c)
      if !valid_search_columns.isEmpty && !(rustTrim search).isEmpty then
        let pattern := "%" ++ search ++ "%"
        let next_argument := b.arguments.length + 1
        let search_conditions := valid_search_columns.map (fun column =>
          "LOWER(" ++ b.dialect.quote_identifier column ++ ") LIKE LOWER("
            ++ b.dialect.placeholder next_argument ++ ")")
        if !search_conditions.isEmpty then
          { b with
            conditions :=
              b.conditions ++ ["(" ++ String.intercalate " OR " search_conditions ++ ")"]
            arguments := b.arguments ++ [SqlArg.str pattern] }
        else b
      else b

/-- `QueryBuilder::with_filters`: one equality fragment per present,
safe filter pair, cast suffix from the dialect. -/
def QueryBuilder.with_filters (b : QueryBuilder) (params : QueryParams) : QueryBuilder :=
  params.filters.foldl
    (fun b kv =>
      if b.is_column_safe kv.1 then
        match kv.2 with
        | some value =>
          let table_column := b.dialect.quote_identifier kv.1
          let type_cast := b.dialect.type_cast value
          let next_argument := b.arguments.length + 1
          let placeholder := b.dialect.placeholder next_argument
          { b with
            conditions :=
              b.conditions ++ [table_column ++ " = " ++ placeholder ++ type_cast]
            arguments := b.arguments ++ [SqlArg.str value] }
        | none => b
      else b)
    b

/-- `QueryBuilder::with_date_range`: `>=` / `<=` fragments with the
column name unquoted and a hard-coded `$`-numbered placeholder. -/
def QueryBuilder.with_date_range (b : QueryBuilder) (params : QueryParams) : QueryBuilder :=
  match params.date_range.date_column with
  | none => b
  | some date_column =>
    if b.is_column_safe date_column then
      let b1 :=
        match params.date_range.date_after with
        | some after =>
          { b with
            conditions :=
              b.conditions ++ [date_column ++ " >= $" ++ toString (b.arguments.length + 1)]
            arguments := b.arguments ++ [SqlArg.timestamp after] }
        | none => b
      match params.date_range.date_before with
      | some before =>
        { b1 with
          conditions :=
            b1.conditions ++ [date_column ++ " <= $" ++ toString (b1.arguments.length + 1)]
          arguments := b1.arguments ++ [SqlArg.timestamp before] }
      | none => b1
    else b

/-- `QueryBuilder::with_condition`: custom operator fragment with the
global `quote_identifier` and a hard-coded `$`-numbered placeholder. -/
def QueryBuilder.with_condition (b : QueryBuilder) (column condition value : String) :
    QueryBuilder :=
  if b.is_column_safe column then
    { b with
      conditions :=
        b.conditions
          ++ [quote_identifier column ++ " " ++ condition ++ " $"
              ++ toString (b.arguments.length + 1)]
      arguments := b.arguments ++ [SqlArg.str value] }
  else b

/-- `QueryBuilder::with_raw_condition`. -/
def QueryBuilder.with_raw_condition (b : QueryBuilder) (condition : String) : QueryBuilder :=
  { b with conditions := b.conditions ++ [condition] }

/-- `QueryBuilder::build`. -/
def QueryBuilder.build (b : QueryBuilder) : List String × List SqlArg :=
  (b.conditions, b.arguments)

/-- `build_query_with_safe_defaults`
(`examples/query_builder_examples.rs`): search, filters, date range on a
fresh protected Postgres builder. -/
def build_query_with_safe_defaults (valid_columns : List String) (params : QueryParams) :
    List String × List SqlArg :=
  ((((QueryBuilder.newPostgres valid_columns).with_search params).with_filters
      params).with_date_range params).build

/-! ## Query-params builder
`src/paginated_query_as/builders/query_params_builder.rs`.  The record
type's serialized field names (`get_struct_field_names::<T>`) are passed
as the `valid_fields` list. -/

/-- Rust `HashMap::insert`: replace the value of an existing key, else
add the pair. -/
def mapInsert (m : List (String × Option String)) (k : String) (v : Option String) :
    List (String × Option String) :=
  if m.any (fun kv => kv.1 == k) then
    m.map (fun kv => if kv.1 == k then (k, v) else kv)
  else m ++ [(k, v)]

structure QueryParamsBuilder where
  query : QueryParams

/-- `QueryParamsBuilder::new`. -/
def QueryParamsBuilder.new : QueryParamsBuilder :=
  { query := QueryParams.defaultSelf }

/-- `QueryParamsBuilder::with_pagination` (clamping against the
configured min/max page size). -/
def QueryParamsBuilder.with_pagination (minSize maxSize : Int) (b : QueryParamsBuilder)
    (page page_size : Int) : QueryParamsBuilder :=
  { query := { b.query with
      pagination := { page := max page DEFAULT_PAGE
                      page_size := i64Clamp page_size minSize maxSize } } }

/-- `QueryParamsBuilder::with_sort`: stores the column unvalidated. -/
def QueryParamsBuilder.with_sort (b : QueryParamsBuilder) (sort_column : String)
    (sort_direction : QuerySortDirection) : QueryParamsBuilder :=
  { query := { b.query with sort := { sort_column, sort_direction } } }

/-- `QueryParamsBuilder::with_search`: stores term and columns
unvalidated. -/
def QueryParamsBuilder.with_search (b : QueryParamsBuilder) (search : String)
    (search_columns : List String) : QueryParamsBuilder :=
  { query := { b.query with
      search := { search := some search, search_columns := some search_columns } } }

/-- `QueryParamsBuilder::with_date_range`: stores the column (or the
default) unvalidated. -/
def QueryParamsBuilder.with_date_range (b : QueryParamsBuilder)
    (date_after date_before : Option Int) (column_name : Option String) :
    QueryParamsBuilder :=
  { query := { b.query with
      date_range := { date_after
                      date_before
                      date_column := some (column_name.getD "created_at") } } }

/-- `QueryParamsBuilder::with_filter`: inserts the pair only when the
key is one of the record type's field names. -/
def QueryParamsBuilder.with_filter (valid_fields : List String) (b : QueryParamsBuilder)
    (key : String) (value : Option String) : QueryParamsBuilder :=
  if valid_fields.contains key then
    { query := { b.query with filters := mapInsert b.query.filters key value } }
  else b

/-- `QueryParamsBuilder::with_filters`: extends with the pairs whose
keys are record-type field names, dropping the rest. -/
def QueryParamsBuilder.with_filters (valid_fields : List String) (b : QueryParamsBuilder)
    (filters : List (String × Option String)) : QueryParamsBuilder :=
  { query := { b.query with
      filters :=
        (filters.filter (fun kv => valid_fields.contains kv.1)).foldl
          (fun m kv => mapInsert m kv.1 kv.2) b.query.filters } }

/-- `QueryParamsBuilder::build`. -/
def QueryParamsBuilder.build (b : QueryParamsBuilder) : QueryParams :=
  b.query

/-! ## Pagination orchestrator
`src/paginated_query_as/builders/paginated_query_builder.rs`.  The two
database round trips are external: the counted total and the fetched
records are parameters.  The response's `pagination` field follows the
constructor in `fetch_paginated` (`Some`/`None`); note that `models.rs`
declares the field non-optional, which is inconsistent with that
constructor. -/

structure PaginatedResponse (ρ : Type) where
  records : List ρ
  pagination : Option QueryPaginationParams
  total : Option Int
  total_pages : Option Int
deriving Repr

/-- Everything `fetch_paginated` produces or sends to the backend:
the COUNT statement (when totals are enabled) with its own
freshly-built conditions and arguments, the page statement with its
conditions and arguments, and the response. -/
structure FetchOutcome (ρ : Type) where
  count_sql : Option String
  count_conditions : Option (List String)
  count_arguments : Option (List SqlArg)
  main_sql : String
  main_conditions : List String
  main_arguments : List SqlArg
  response : PaginatedResponse ρ

/-- `build_base_query`. -/
def build_base_query (baseSql : String) : String :=
  "WITH base_query AS (" ++ baseSql ++ ")"

/-- `build_where_clause`. -/
def build_where_clause (conditions : List String) : String :=
  if conditions.isEmpty then ""
  else " WHERE " ++ String.intercalate " AND " conditions

/-- `build_order_clause`. -/
def build_order_clause (params : QueryParams) : String :=
  let order :=
    match params.sort.sort_direction with
    | QuerySortDirection.Ascending => "ASC"
    | QuerySortDirection.Descending => "DESC"
  " ORDER BY " ++ quote_identifier params.sort.sort_column ++ " " ++ order

/-- `build_limit_offset_clause` (`i64` arithmetic as `Int`). -/
def build_limit_offset_clause (params : QueryParams) : String :=
  let offset := (params.pagination.page - 1) * params.pagination.page_size
  " LIMIT " ++ toString params.pagination.page_size ++ " OFFSET " ++ toString offset

/-- `PaginatedQueryBuilder::fetch_paginated`: build conditions and
arguments once for the page query; when totals are enabled, invoke the
build function a second time for the COUNT query, sharing the WHERE
text computed from the first invocation, and compute
`total_pages = count == 0 ? 0 : (count + page_size - 1) / page_size`
with Rust's truncating `i64` division (`Int.tdiv`). -/
def fetch_paginated (ρ : Type) (build_query_fn : QueryParams → List String × List SqlArg)
    (params : QueryParams) (totals_count_enabled : Bool) (baseSql : String)
    (dbCount : Int) (dbRecords : List ρ) : FetchOutcome ρ :=
  let base_sql := build_base_query baseSql
  let built := build_query_fn params
  let where_clause := build_where_clause built.1
  let main_sql := base_sql ++ " SELECT * FROM base_query" ++ where_clause
    ++ build_order_clause params ++ build_limit_offset_clause params
  if totals_count_enabled then
    let built2 := build_query_fn params
    let count_sql := base_sql ++ " SELECT COUNT(*) FROM base_query" ++ where_clause
    let available_pages : Int :=
      if dbCount = 0 then 0
      else Int.tdiv (dbCount + params.pagination.page_size - 1) params.pagination.page_size
    { count_sql := some count_sql
      count_conditions := some built2.1
      count_arguments := some built2.2
      main_sql
      main_conditions := built.1
      main_arguments := built.2
      response :=
        { records := dbRecords
          pagination := some params.pagination
          total := some dbCount
          total_pages := some available_pages } }
  else
    { count_sql := none
      count_conditions := none
      count_arguments := none
      main_sql
      main_conditions := built.1
      main_arguments := built.2
      response :=
        { records := dbRecords
          pagination := none
          total := none
          total_pages := none } }

/-! ## Concrete inputs used by the end-to-end conjuncts -/

/-- The spec's end-to-end example: filter `status=active`, page 1,
page size 10, defaults elsewhere. -/
def exampleParams : QueryParams :=
  { QueryParams.defaultSelf with
    pagination := { page := 1, page_size := 10 }
    filters := [("status", some "active")] }

/-- Field names of the example record type. -/
def exampleColumns : List String :=
  ["name", "description", "status", "created_at"]

/-- Search parameters with two search columns, used to settle how many
copies of the pattern are bound. -/
def searchExampleParams : QueryParams :=
  { QueryParams.defaultSelf with
    search := { search := some "john", search_columns := some ["name", "description"] } }

/-- Date-range parameters with only a lower bound. -/
def dateExampleParams : QueryParams :=
  { QueryParams.defaultSelf with
    date_range :=
      { date_after := some 0, date_before := none, date_column := some "created_at" } }

/-! ## Theorems -/

/-- The inline disjunction rejected by `is_safe`'s third step is exactly
the negation of `structuralOk`. -/
theorem malformed_eq_not_structuralOk (value : String) :
    (value.isEmpty
      || !(value.data.all (fun c => c.isAlphanum || c == '_' || c == '.'))
      || containsSub value ".."
      || startsWithSub value "."
      || endsWithSub value ".") = !structuralOk value := by
  simp [structuralOk]

/-- C1 (counterexample).  The claim says the allow-pattern and
block-pattern sets are consulted only after the structural check has
rejected malformed identifiers, i.e. a structurally malformed identifier
is always unsafe.  In the code the allow checks run first: with an
allow-pattern `";"` configured, the malformed identifier `"a;"`
(it contains a character outside alphanumeric/underscore/dot) is
reported safe. -/
theorem c1_allow_before_structural_counterexample :
    (ColumnProtection.defaultSelf.allow_pattern ";").is_safe "a;" = true
      ∧ structuralOk "a;" = false := by
  constructor <;> decide

/-- C1 (amended).  `is_safe` gives allow rules (system-column allow-list
membership, then allow-pattern substring match) precedence over
everything else, including the structural check: an explicitly allowed
identifier is safe even when malformed.  Only identifiers not explicitly
allowed go through the structural check, and such an identifier passing
it is unsafe exactly when its lower-cased form contains a configured
blocked pattern.  The default-configuration examples of the spec hold:
`pg_class`, `information_schema.tables` and `ctid` are unsafe,
`user_id` is safe, and allow-listing `ctid` flips only `ctid`. -/
theorem c1_is_safe_allow_precedence_amended :
    (∀ (p : ColumnProtection) (v : String),
      p.is_safe v =
        (p.allowed_system_columns.contains v
          || p.allowed_patterns.any (fun pat => containsSub v pat)
          || (structuralOk v
              && !(p.blocked_patterns.any (fun pat => containsSub (lowerStr v) pat)))))
      ∧ ColumnProtection.defaultSelf.is_safe "pg_class" = false
      ∧ ColumnProtection.defaultSelf.is_safe "information_schema.tables" = false
      ∧ ColumnProtection.defaultSelf.is_safe "ctid" = false
      ∧ ColumnProtection.defaultSelf.is_safe "user_id" = true
      ∧ (ColumnProtection.defaultSelf.allow_system_columns ["ctid"]).is_safe "ctid" = true
      ∧ (ColumnProtection.defaultSelf.allow_system_columns ["ctid"]).is_safe "cmax" = false
      ∧ (ColumnProtection.defaultSelf.allow_system_columns ["ctid"]).is_safe "oid" = false := by
  refine ⟨?_, by decide, by decide, by decide, by decide, by decide, by decide, by decide⟩
  intro p v
  unfold ColumnProtection.is_safe
  rw [malformed_eq_not_structuralOk]
  by_cases h1 : p.allowed_system_columns.contains v = true
  · rw [if_pos h1, h1]; simp
  · rw [if_neg h1]
    simp only [Bool.not_eq_true] at h1
    rw [h1]
    by_cases h2 : (p.allowed_patterns.any fun pat => containsSub v pat) = true
    · rw [if_pos h2, h2]; simp
    · rw [if_neg h2]
      simp only [Bool.not_eq_true] at h2
      rw [h2]
      by_cases h3 : structuralOk v = true
      · rw [h3]; simp
      · simp only [Bool.not_eq_true] at h3
        rw [h3]; simp

theorem splitOnDot_cons (c : Char) (r : List Char) :
    splitOnDot (c :: r) =
      if c = '.' then [] :: splitOnDot r
      else
        match splitOnDot r with
        | [] => [[c]]
        | p :: ps => (c :: p) :: ps := rfl

theorem splitOnDot_ne_nil (l : List Char) : splitOnDot l ≠ [] := by
  cases l with
  | nil => simp [splitOnDot]
  | cons c r =>
    rw [splitOnDot_cons]
    by_cases h : c = '.'
    · simp [h]
    · simp only [h, if_false]
      cases splitOnDot r <;> simp

theorem joinDot_cons_cons (p q : List Char) (qs : List (List Char)) :
    joinDot (p :: q :: qs) = p ++ '.' :: joinDot (q :: qs) := rfl

theorem undoubleQ_doubleQ (p : List Char) : undoubleQ (doubleQ p) = p := by
  induction p with
  | nil => rfl
  | cons c r ih =>
    by_cases h : c = '"'
    · subst h
      simp only [doubleQ, if_pos rfl]
      simp [undoubleQ, ih]
    · simp only [doubleQ, if_neg h]
      cases r with
      | nil => simp [doubleQ, undoubleQ]
      | cons e s =>
        have hcons : ∃ d rest, doubleQ (e :: s) = d :: rest := by
          by_cases he : e = '"' <;> simp [doubleQ, he]
        obtain ⟨d, rest, hd⟩ := hcons
        rw [hd]
        rw [hd] at ih
        simp [undoubleQ, h, ih]

theorem stripWrapQ_wrapQ (p : List Char) : stripWrapQ (wrapQ p) = doubleQ p := by
  simp [stripWrapQ, wrapQ]

theorem doubleQ_no_dot (p : List Char) (h : '.' ∉ p) : '.' ∉ doubleQ p := by
  induction p with
  | nil => simp [doubleQ]
  | cons c r ih =>
    simp only [List.mem_cons, not_or] at h
    by_cases hc : c = '"'
    · simp only [doubleQ, if_pos hc, List.mem_cons, not_or]
      exact ⟨by decide, by decide, ih h.2⟩
    · simp only [doubleQ, if_neg hc, List.mem_cons, not_or]
      exact ⟨h.1, ih h.2⟩

theorem wrapQ_no_dot (p : List Char) (h : '.' ∉ p) : '.' ∉ wrapQ p := by
  simp only [wrapQ, List.mem_cons, List.mem_append, List.mem_singleton, not_or]
  exact ⟨by decide, doubleQ_no_dot p h, by decide⟩

theorem splitOnDot_no_dot (p : List Char) (h : '.' ∉ p) : splitOnDot p = [p] := by
  induction p with
  | nil => rfl
  | cons c r ih =>
    simp only [List.mem_cons, not_or] at h
    have hc : c ≠ '.' := fun hh => h.1 hh.symm
    rw [splitOnDot_cons, if_neg hc, ih h.2]

theorem splitOnDot_append_dot (p r : List Char) (h : '.' ∉ p) :
    splitOnDot (p ++ '.' :: r) = p :: splitOnDot r := by
  induction p with
  | nil => simp [splitOnDot]
  | cons c q ih =>
    simp only [List.mem_cons, not_or] at h
    have hc : c ≠ '.' := fun hh => h.1 hh.symm
    rw [List.cons_append, splitOnDot_cons, if_neg hc, ih h.2]

theorem splitOnDot_parts_no_dot (l : List Char) : ∀ p ∈ splitOnDot l, '.' ∉ p := by
  induction l with
  | nil =>
    intro p hp
    simp only [splitOnDot, List.mem_singleton] at hp
    subst hp; simp
  | cons c r ih =>
    intro p hp
    rw [splitOnDot_cons] at hp
    by_cases h : c = '.'
    · rw [if_pos h] at hp
      rcases List.mem_cons.mp hp with h1 | h1
      · subst h1; simp
      · exact ih p h1
    · rw [if_neg h] at hp
      rcases hs : splitOnDot r with _ | ⟨q, qs⟩
      · exact absurd hs (splitOnDot_ne_nil r)
      · rw [hs] at hp
        change p ∈ (c :: q) :: qs at hp
        rcases List.mem_cons.mp hp with h1 | h1
        · subst h1
          have hq : '.' ∉ q := ih q (by rw [hs]; exact List.mem_cons_self q qs)
          simp only [List.mem_cons, not_or]
          exact ⟨fun hh => h hh.symm, hq⟩
        · exact ih p (by rw [hs]; exact List.mem_cons_of_mem _ h1)

theorem joinDot_splitOnDot (l : List Char) : joinDot (splitOnDot l) = l := by
  induction l with
  | nil => rfl
  | cons c r ih =>
    rw [splitOnDot_cons]
    by_cases h : c = '.'
    · rw [if_pos h]
      rcases hs : splitOnDot r with _ | ⟨p, ps⟩
      · exact absurd hs (splitOnDot_ne_nil r)
      · rw [hs] at ih
        rw [joinDot_cons_cons, List.nil_append, ih, h]
    · rw [if_neg h]
      rcases hs : splitOnDot r with _ | ⟨p, ps⟩
      · exact absurd hs (splitOnDot_ne_nil r)
      · rw [hs] at ih
        show joinDot ((c :: p) :: ps) = c :: r
        cases ps with
        | nil =>
          show c :: p = c :: r
          have hpr : p = r := ih
          rw [hpr]
        | cons q qs =>
          rw [joinDot_cons_cons] at ih
          rw [joinDot_cons_cons, List.cons_append, ih]

theorem splitOnDot_joinDot_wrapped (parts : List (List Char))
    (hne : parts ≠ []) (hnd : ∀ p ∈ parts, '.' ∉ p) :
    splitOnDot (joinDot (parts.map wrapQ)) = parts.map wrapQ := by
  induction parts with
  | nil => exact absurd rfl hne
  | cons x ys ih =>
    cases ys with
    | nil =>
      simp only [List.map_cons, List.map_nil]
      show splitOnDot (wrapQ x) = [wrapQ x]
      exact splitOnDot_no_dot _ (wrapQ_no_dot x (hnd x (List.mem_cons_self x [])))
    | cons y zs =>
      simp only [List.map_cons] at ih ⊢
      rw [joinDot_cons_cons,
        splitOnDot_append_dot _ _ (wrapQ_no_dot x (hnd x (List.mem_cons_self x (y :: zs))))]
      have hrec := ih (by simp) (fun p hp => hnd p (List.mem_cons_of_mem _ hp))
      simp only [List.map_cons] at hrec
      rw [hrec]

theorem unquoteChars_quoteChars (l : List Char) : unquoteChars (quoteChars l) = l := by
  unfold quoteChars unquoteChars
  rw [splitOnDot_joinDot_wrapped (splitOnDot l) (splitOnDot_ne_nil l)
    (splitOnDot_parts_no_dot l)]
  rw [List.map_map]
  have hid : ((fun p => undoubleQ (stripWrapQ p)) ∘ wrapQ) = id := by
    funext p
    simp [Function.comp, stripWrapQ_wrapQ, undoubleQ_doubleQ]
  rw [hid, List.map_id, joinDot_splitOnDot]

/-- C5.  Identifier quoting round-trips for every string, adversarial
inputs included: for the dot-splitting `quote_identifier` of
`internal_utils.rs`, un-quoting per dot-separated part (removing the
wrapping quotes and un-doubling embedded quotes) recovers the original
identifier exactly, and likewise for the plain
`PostgresDialect::quote_identifier`. -/
theorem c5_quote_identifier_roundtrip :
    ∀ s : String,
      unquote_identifier (quote_identifier s) = s
        ∧ pgUnquoteIdentifier (pgQuoteIdentifier s) = s := by
  intro s
  constructor
  · show String.mk (unquoteChars (quoteChars s.data)) = s
    rw [unquoteChars_quoteChars]
  · show String.mk (undoubleQ (stripWrapQ (wrapQ s.data))) = s
    rw [stripWrapQ_wrapQ, undoubleQ_doubleQ]

/-- C2.  `get_postgres_type_casting` is total and deterministic (it is a
pure function of the value string: every input yields exactly one cast
suffix, identical inputs yield identical suffixes); its pattern chain is
first-match-wins in the source order, witnessed at the boundaries:
`"123"` takes the narrowest integer cast `::smallint` (not `::integer`,
`::bigint` or a float cast), `"32768"` falls through `i16` to
`::integer`, `"2147483648"` to `::bigint`, `"9223372036854775808"`
(too wide for `i64`) to `::real`, the sentinels `"nan"`/`"infinity"`
take the empty cast although they parse as floats, and `"t"` is
`::boolean`. -/
theorem c2_type_cast_total_deterministic :
    (∀ v₁ v₂ : String, v₁ = v₂ →
        get_postgres_type_casting v₁ = get_postgres_type_casting v₂)
      ∧ (∀ v : String, ∃ c : String, get_postgres_type_casting v = c)
      ∧ get_postgres_type_casting "123" = "::smallint"
      ∧ get_postgres_type_casting "32768" = "::integer"
      ∧ get_postgres_type_casting "2147483648" = "::bigint"
      ∧ get_postgres_type_casting "9223372036854775808" = "::real"
      ∧ get_postgres_type_casting "nan" = ""
      ∧ get_postgres_type_casting "infinity" = ""
      ∧ get_postgres_type_casting "t" = "::boolean" := by
  refine ⟨fun v₁ v₂ h => h ▸ rfl, fun v => ⟨_, rfl⟩,
    by decide, by decide, by decide, by decide, by decide, by decide, by decide⟩

/-- Witness for C2's hypothesised conjunct at the concrete input
`"123"`. -/
theorem c2_type_cast_total_deterministic_witness :
    ("123" : String) = "123"
      ∧ get_postgres_type_casting "123" = get_postgres_type_casting "123" :=
  ⟨rfl, c2_type_cast_total_deterministic.1 "123" "123" rfl⟩

theorem i64Clamp_bounds (x lo hi : Int) (h : lo ≤ hi) :
    lo ≤ i64Clamp x lo hi ∧ i64Clamp x lo hi ≤ hi := by
  unfold i64Clamp
  by_cases h1 : x < lo
  · simp only [if_pos h1]; omega
  · rw [if_neg h1]
    by_cases h2 : x > hi
    · simp only [if_pos h2]; omega
    · rw [if_neg h2]; omega

theorem extractedNonPositive_some (s : String) (d : Int)
    (hb : parseI64 (extract_digits_from_strings s) = some d)
    (h : extractedNonPositive s = true) : d ≤ 0 := by
  unfold extractedNonPositive at h
  rw [hb] at h
  exact of_decide_eq_true h

theorem pageInputNonPositive_some (s : String)
    (h : pageInputNonPositive (some s) = true)
    (h1 : ¬((rustTrim s).isEmpty || startsWithSub (rustTrim s) "-") = true) :
    extractedNonPositive s = true := by
  unfold pageInputNonPositive at h
  simp only [Bool.or_eq_true] at h h1
  tauto

/-- C4.  Wire-format pagination normalization: every page input that is
absent, blank, negative, or whose extracted digit content is missing,
unparseable or ≤ 0 normalizes to page 1; digits are extracted from
mixed text (`"page5"` normalizes to 5); and for every page-size input
the normalized page size lies in the configured `[min, max]` interval
(for any configuration with `min ≤ max`), regardless of the input. -/
theorem c4_page_and_page_size_normalization :
    (∀ input : Option String, pageInputNonPositive input = true →
        page_deserialize input = 1)
      ∧ page_deserialize (some "page5") = 5
      ∧ (∀ (minSize maxSize : Int) (input : Option String), minSize ≤ maxSize →
          minSize ≤ page_size_deserialize minSize maxSize input
            ∧ page_size_deserialize minSize maxSize input ≤ maxSize) := by
  refine ⟨?_, by decide, ?_⟩
  · intro input h
    cases input with
    | none => rfl
    | some s =>
      simp only [page_deserialize]
      by_cases h1 : ((rustTrim s).isEmpty || startsWithSub (rustTrim s) "-") = true
      · rw [if_pos h1]; rfl
      · rw [if_neg h1]
        have h3 : extractedNonPositive s = true := pageInputNonPositive_some s h h1
        clear h
        cases hb : parseI64 (extract_digits_from_strings s) with
        | none => rfl
        | some d =>
          have hd : d ≤ 0 := extractedNonPositive_some s d hb h3
          have hlt : d < DEFAULT_PAGE := by unfold DEFAULT_PAGE; omega
          show (if d < DEFAULT_PAGE then DEFAULT_PAGE else d) = 1
          rw [if_pos hlt]; rfl
  · intro minSize maxSize input h
    cases input with
    | none => exact ⟨le_refl _, h⟩
    | some s =>
      simp only [page_size_deserialize]
      by_cases h1 : ((rustTrim s).isEmpty || startsWithSub (rustTrim s) "-") = true
      · rw [if_pos h1]; exact ⟨le_refl _, h⟩
      · rw [if_neg h1]
        cases hb : parseI64 (extract_digits_from_strings s) with
        | none => exact ⟨le_refl _, h⟩
        | some d => exact i64Clamp_bounds d minSize maxSize h

/-- Witness for C4 at the concrete inputs `"-7"` (negative page input,
normalized to 1) and page-size `"1000"` with the configuration
`min = 10`, `max = 50` (clamped into `[10, 50]`). -/
theorem c4_page_and_page_size_normalization_witness :
    pageInputNonPositive (some "-7") = true
      ∧ page_deserialize (some "-7") = 1
      ∧ (10 : Int) ≤ 50
      ∧ 10 ≤ page_size_deserialize 10 50 (some "1000")
      ∧ page_size_deserialize 10 50 (some "1000") ≤ 50 :=
  ⟨by decide,
   c4_page_and_page_size_normalization.1 (some "-7") (by decide),
   by decide,
   (c4_page_and_page_size_normalization.2.2 10 50 (some "1000") (by decide)).1,
   (c4_page_and_page_size_normalization.2.2 10 50 (some "1000") (by decide)).2⟩

/-- C3.  Inside `fetch_paginated` with totals enabled, the two
invocations of the condition-building function
(`build_query_with_safe_defaults`) — one for the COUNT query, one for
the page query — yield the same ordered fragment list and the same
ordered argument list for every `QueryParams`, and the COUNT statement
is built from the very WHERE text of the page statement.  The spec's
end-to-end example holds: base query `SELECT * FROM users` with filter
`status=active`, page 1, page size 10 yields exactly one equality
condition bound to `"active"`, `LIMIT 10 OFFSET 0`, and a COUNT query
sharing the identical WHERE text. -/
theorem c3_count_and_page_builds_identical :
    (∀ (ρ : Type) (valid_columns : List String) (params : QueryParams)
        (baseSql : String) (dbCount : Int) (dbRecords : List ρ),
      (fetch_paginated ρ (build_query_with_safe_defaults valid_columns) params true
          baseSql dbCount dbRecords).count_conditions
        = some (fetch_paginated ρ (build_query_with_safe_defaults valid_columns) params true
          baseSql dbCount dbRecords).main_conditions
      ∧ (fetch_paginated ρ (build_query_with_safe_defaults valid_columns) params true
          baseSql dbCount dbRecords).count_arguments
        = some (fetch_paginated ρ (build_query_with_safe_defaults valid_columns) params true
          baseSql dbCount dbRecords).main_arguments
      ∧ (fetch_paginated ρ (build_query_with_safe_defaults valid_columns) params true
          baseSql dbCount dbRecords).count_sql
        = some (build_base_query baseSql ++ " SELECT COUNT(*) FROM base_query"
            ++ build_where_clause (fetch_paginated ρ (build_query_with_safe_defaults
              valid_columns) params true baseSql dbCount dbRecords).main_conditions))
      ∧ (build_query_with_safe_defaults exampleColumns exampleParams).1 = ["\"status\" = $1"]
      ∧ (build_query_with_safe_defaults exampleColumns exampleParams).2 = [SqlArg.str "active"]
      ∧ (fetch_paginated Unit (build_query_with_safe_defaults exampleColumns) exampleParams true
          "SELECT * FROM users" 1 []).main_sql
        = "WITH base_query AS (SELECT * FROM users) SELECT * FROM base_query WHERE \"status\" = $1 ORDER BY \"created_at\" DESC LIMIT 10 OFFSET 0"
      ∧ (fetch_paginated Unit (build_query_with_safe_defaults exampleColumns) exampleParams true
          "SELECT * FROM users" 1 []).count_sql
        = some "WITH base_query AS (SELECT * FROM users) SELECT COUNT(*) FROM base_query WHERE \"status\" = $1" :=
  ⟨fun _ _ _ _ _ _ => ⟨rfl, rfl, rfl⟩, by decide, by decide, by decide, by decide⟩

/-- C6 (counterexample).  With the search term `"john"` and the two
safe search columns `name` and `description`, `with_search` emits one
fragment containing two comparisons that share the single placeholder
`$1`, and binds the wildcard pattern exactly once — the argument list
gains one entry, not one per compared column as the claim states. -/
theorem c6_single_binding_counterexample :
    ((QueryBuilder.newPostgres exampleColumns).with_search searchExampleParams).conditions
      = ["(LOWER(\"name\") LIKE LOWER($1) OR LOWER(\"description\") LIKE LOWER($1))"]
    ∧ ((QueryBuilder.newPostgres exampleColumns).with_search searchExampleParams).arguments
      = [SqlArg.str "%john%"]
    ∧ ¬ ((QueryBuilder.newPostgres exampleColumns).with_search
        searchExampleParams).arguments.length = 2 :=
  ⟨by decide, by decide, by decide⟩

/-- C6 (amended).  For every builder and every `QueryParams` whose
search term is non-empty after trimming and whose column set contains at
least one safe column, `with_search` appends exactly one OR-combined
fragment with one `LOWER(col) LIKE LOWER(placeholder)` comparison per
safe column, every comparison sharing the single placeholder
`arguments.len() + 1`, and binds the wildcard-wrapped pattern `%term%`
exactly once per fragment — i.e. once in total, not once per compared
column. -/
theorem c6_search_fragment_single_binding_amended :
    ∀ (b : QueryBuilder) (params : QueryParams) (term : String) (columns : List String),
      params.search.search = some term →
      params.search.search_columns = some columns →
      columns.filter (fun c => b.is_column_safe c) ≠ [] →
      (rustTrim term).isEmpty = false →
      (b.with_search params).conditions
          = b.conditions
            ++ ["(" ++ String.intercalate " OR "
                  ((columns.filter (fun c => b.is_column_safe c)).map (fun column =>
                    "LOWER(" ++ b.dialect.quote_identifier column ++ ") LIKE LOWER("
                      ++ b.dialect.placeholder (b.arguments.length + 1) ++ ")")) ++ ")"]
        ∧ (b.with_search params).arguments
          = b.arguments ++ [SqlArg.str ("%" ++ term ++ "%")] := by
  intro b params term columns hterm hcols hne htrim
  unfold QueryBuilder.with_search
  rw [hterm, hcols]
  have hv : (columns.filter (fun c => b.is_column_safe c)).isEmpty = false := by
    cases hf : columns.filter (fun c => b.is_column_safe c) with
    | nil => exact absurd hf hne
    | cons x xs => rfl
  have hmap : ((columns.filter (fun c => b.is_column_safe c)).map (fun column =>
      "LOWER(" ++ b.dialect.quote_identifier column ++ ") LIKE LOWER("
        ++ b.dialect.placeholder (b.arguments.length + 1) ++ ")")).isEmpty = false := by
    cases hf : columns.filter (fun c => b.is_column_safe c) with
    | nil => exact absurd hf hne
    | cons x xs => rfl
  simp only [hv, htrim, hmap, Bool.not_false, Bool.and_self, if_true]
  exact ⟨trivial, trivial⟩

/-- Witness for C6 (amended) at the concrete two-column search input. -/
theorem c6_search_fragment_single_binding_amended_witness :
    searchExampleParams.search.search = some "john"
      ∧ ((QueryBuilder.newPostgres exampleColumns).with_search searchExampleParams).arguments
        = (QueryBuilder.newPostgres exampleColumns).arguments
          ++ [SqlArg.str ("%" ++ "john" ++ "%")] :=
  ⟨rfl,
   (c6_search_fragment_single_binding_amended (QueryBuilder.newPostgres exampleColumns)
      searchExampleParams "john" ["name", "description"] rfl rfl (by decide) (by decide)).2⟩

/-- Truncating-then-Euclidean form of the ceiling of a positive
division: `(c + p - 1) / p` (Euclidean division, `p > 0`) is
`⌈c / p⌉`. -/
theorem ceil_div_eq_add_pred_ediv (c p : Int) (hp : 0 < p) :
    ⌈(c : ℚ) / (p : ℚ)⌉ = (c + p - 1) / p := by
  have hp' : (0 : ℚ) < (p : ℚ) := by exact_mod_cast hp
  have hmod := Int.ediv_add_emod (c + p - 1) p
  have hr0 : 0 ≤ (c + p - 1) % p := Int.emod_nonneg _ (by omega)
  have hrp : (c + p - 1) % p < p := Int.emod_lt_of_pos _ hp
  have hcomm : ((c + p - 1) / p) * p = p * ((c + p - 1) / p) := mul_comm _ _
  rw [Int.ceil_eq_iff]
  constructor
  · rw [sub_lt_iff_lt_add]
    have hqp : ((c + p - 1) / p) * p < c + p := by linarith [hmod, hr0, hcomm]
    have hq : (((c + p - 1) / p : Int) : ℚ) * (p : ℚ) < (c : ℚ) + (p : ℚ) := by
      exact_mod_cast hqp
    have h2 : (((c + p - 1) / p : Int) : ℚ) < ((c : ℚ) + (p : ℚ)) / (p : ℚ) :=
      (lt_div_iff₀ hp').mpr hq
    rw [add_div, div_self hp'.ne'] at h2
    exact h2
  · rw [div_le_iff₀ hp']
    have hle : c ≤ ((c + p - 1) / p) * p := by linarith [hmod, hrp, hcomm]
    exact_mod_cast hle

/-- C7.  With totals enabled, `fetch_paginated` reports
`total_pages = ⌈total / page_size⌉` for a positive counted total and
`0` for a zero total; with totals disabled, the COUNT phase is skipped
and both `total` and `total_pages` are `None` while the records for the
requested page are still returned. -/
theorem c7_total_pages_ceiling_and_disabled_totals :
    ∀ (ρ : Type) (fn : QueryParams → List String × List SqlArg) (params : QueryParams)
      (baseSql : String) (dbCount : Int) (dbRecords : List ρ),
      0 ≤ dbCount → 0 < params.pagination.page_size →
      ((fetch_paginated ρ fn params true baseSql dbCount dbRecords).response.total
          = some dbCount
        ∧ (dbCount = 0 →
            (fetch_paginated ρ fn params true baseSql dbCount dbRecords).response.total_pages
              = some 0)
        ∧ (0 < dbCount →
            (fetch_paginated ρ fn params true baseSql dbCount dbRecords).response.total_pages
              = some ⌈(dbCount : ℚ) / (params.pagination.page_size : ℚ)⌉))
      ∧ ((fetch_paginated ρ fn params false baseSql dbCount dbRecords).response.total = none
        ∧ (fetch_paginated ρ fn params false baseSql dbCount dbRecords).response.total_pages
          = none
        ∧ (fetch_paginated ρ fn params false baseSql dbCount dbRecords).response.records
          = dbRecords) := by
  intro ρ fn params baseSql dbCount dbRecords h0 hps
  refine ⟨⟨rfl, ?_, ?_⟩, rfl, rfl, rfl⟩
  · intro h0'
    subst h0'
    rfl
  · intro hpos
    show some (if dbCount = 0 then 0
        else Int.tdiv (dbCount + params.pagination.page_size - 1) params.pagination.page_size)
      = some ⌈(dbCount : ℚ) / (params.pagination.page_size : ℚ)⌉
    rw [if_neg (by omega : ¬dbCount = 0)]
    rw [Int.tdiv_eq_ediv (by omega) (by omega)]
    rw [ceil_div_eq_add_pred_ediv dbCount params.pagination.page_size hps]

/-- Witness for C7 at total 25, page size 10 (and the totals-disabled
side at the same inputs). -/
theorem c7_total_pages_ceiling_and_disabled_totals_witness :
    (0 : Int) ≤ 25
      ∧ (0 : Int) < exampleParams.pagination.page_size
      ∧ (0 : Int) < 25
      ∧ (fetch_paginated Unit (build_query_with_safe_defaults exampleColumns) exampleParams
          true "SELECT * FROM users" 25 []).response.total_pages
        = some ⌈((25 : Int) : ℚ) / ((exampleParams.pagination.page_size : Int) : ℚ)⌉
      ∧ (fetch_paginated Unit (build_query_with_safe_defaults exampleColumns) exampleParams
          false "SELECT * FROM users" 25 []).response.total = none :=
  ⟨by decide, by decide, by decide,
   ((c7_total_pages_ceiling_and_disabled_totals Unit
      (build_query_with_safe_defaults exampleColumns) exampleParams "SELECT * FROM users" 25 []
      (by decide) (by decide)).1.2.2 (by decide)),
   ((c7_total_pages_ceiling_and_disabled_totals Unit
      (build_query_with_safe_defaults exampleColumns) exampleParams "SELECT * FROM users" 25 []
      (by decide) (by decide)).2.1)⟩

/-- C8 (counterexample).  `QueryParamsBuilder::with_filter` does
validate at construction time: with a record type whose serialized
fields are `["name"]`, the filter key `"status"` is dropped on the
spot, so the built `QueryParams` does not store the given column. -/
theorem c8_filter_keys_validated_at_construction_counterexample :
    ((QueryParamsBuilder.with_filter ["name"] QueryParamsBuilder.new "status"
        (some "active")).build).filters = []
      ∧ ¬ ((QueryParamsBuilder.with_filter ["name"] QueryParamsBuilder.new "status"
        (some "active")).build).filters = [("status", some "active")] :=
  ⟨by decide, by decide⟩

/-- C8 (amended).  Sort, search and date-range columns are stored by the
builder unvalidated, but filter keys are checked against the record
type's serialized field names already at construction time
(`with_filter` / `with_filters` silently drop unknown keys); the
safety-protection validation (`is_column_safe`) is applied at
condition-build time, where an unsafe stored filter key contributes no
fragment and no argument. -/
theorem c8_column_validation_timing_amended :
    (∀ (valid_fields : List String) (b : QueryParamsBuilder) (key : String)
        (value : Option String),
      (valid_fields.contains key = true →
          (QueryParamsBuilder.with_filter valid_fields b key value).query.filters
            = mapInsert b.query.filters key value)
        ∧ (valid_fields.contains key = false →
            QueryParamsBuilder.with_filter valid_fields b key value = b))
      ∧ (∀ (valid_fields : List String) (b : QueryParamsBuilder)
          (filters : List (String × Option String)),
          (QueryParamsBuilder.with_filters valid_fields b filters).query.filters
            = (filters.filter (fun kv => valid_fields.contains kv.1)).foldl
                (fun m kv => mapInsert m kv.1 kv.2) b.query.filters)
      ∧ (∀ (b : QueryParamsBuilder) (col : String) (dir : QuerySortDirection),
          (b.with_sort col dir).query.sort.sort_column = col)
      ∧ (∀ (b : QueryParamsBuilder) (term : String) (cols : List String),
          (b.with_search term cols).query.search.search_columns = some cols)
      ∧ (∀ (b : QueryParamsBuilder) (ta tb : Option Int) (col : String),
          (b.with_date_range ta tb (some col)).query.date_range.date_column = some col)
      ∧ (∀ (b : QueryBuilder) (k : String) (v : Option String) (params : QueryParams),
          params.filters = [(k, v)] → b.is_column_safe k = false →
          b.with_filters params = b) := by
  refine ⟨?_, fun _ _ _ => rfl, fun _ _ _ => rfl, fun _ _ _ => rfl, fun _ _ _ _ => rfl, ?_⟩
  · intro valid_fields b key value
    constructor
    · intro h
      unfold QueryParamsBuilder.with_filter
      rw [if_pos h]
    · intro h
      unfold QueryParamsBuilder.with_filter
      rw [if_neg (by rw [h]; simp)]
  · intro b k v params hfil hsafe
    unfold QueryBuilder.with_filters
    rw [hfil]
    simp [hsafe]

/-- Witness for C8 (amended) at a stored key (`"status"` among the
record fields) and at an unsafe condition-build-time key. -/
theorem c8_column_validation_timing_amended_witness :
    (["status"].contains "status" = true)
      ∧ (QueryParamsBuilder.with_filter ["status"] QueryParamsBuilder.new "status"
          (some "active")).query.filters
        = mapInsert QueryParamsBuilder.new.query.filters "status" (some "active")
      ∧ (QueryBuilder.newPostgres ["name"]).with_filters
          { QueryParams.defaultSelf with filters := [("ctid", some "1")] }
        = QueryBuilder.newPostgres ["name"] :=
  ⟨by decide,
   (c8_column_validation_timing_amended.1 ["status"] QueryParamsBuilder.new "status"
      (some "active")).1 (by decide),
   c8_column_validation_timing_amended.2.2.2.2.2 (QueryBuilder.newPostgres ["name"]) "ctid"
      (some "1") { QueryParams.defaultSelf with filters := [("ctid", some "1")] } rfl
      (by decide)⟩

/-- C9 (counterexample).  With total-count computation disabled,
`fetch_paginated` sets the response's `pagination` to `None`: the
request's page and page size (here 1 and 10) are not echoed back,
contrary to the claim that they are echoed whether totals are enabled
or disabled. -/
theorem c9_pagination_echo_counterexample :
    (fetch_paginated Unit (build_query_with_safe_defaults exampleColumns) exampleParams false
        "SELECT * FROM users" 0 []).response.pagination = none
      ∧ exampleParams.pagination = { page := 1, page_size := 10 }
      ∧ ¬ (fetch_paginated Unit (build_query_with_safe_defaults exampleColumns) exampleParams
          false "SELECT * FROM users" 0 []).response.pagination
        = some exampleParams.pagination :=
  ⟨rfl, rfl, by decide⟩

/-- C9 (amended).  The response echoes the request's pagination
parameters exactly when total-count computation is enabled; when it is
disabled the `pagination` field is `None`, while the records for the
requested page are returned in both modes. -/
theorem c9_pagination_echo_amended :
    ∀ (ρ : Type) (fn : QueryParams → List String × List SqlArg) (params : QueryParams)
      (baseSql : String) (dbCount : Int) (dbRecords : List ρ),
      ((fetch_paginated ρ fn params true baseSql dbCount dbRecords).response.pagination
          = some params.pagination
        ∧ (fetch_paginated ρ fn params true baseSql dbCount dbRecords).response.records
          = dbRecords)
      ∧ ((fetch_paginated ρ fn params false baseSql dbCount dbRecords).response.pagination
          = none
        ∧ (fetch_paginated ρ fn params false baseSql dbCount dbRecords).response.records
          = dbRecords) :=
  fun _ _ _ _ _ _ => ⟨⟨rfl, rfl⟩, ⟨rfl, rfl⟩⟩

/-- C10.  For every builder — hence every configured dialect, the
SQLite dialect with its repeated `?` placeholder token included —
`with_date_range` emits its fragments in the fixed forms
`<column> >= $n` and `<column> <= $n` with a hard-coded `$`-numbered
placeholder and the column name unquoted (neither the dialect's
`placeholder` nor its `quote_identifier` is applied), and
`with_condition` likewise hard-codes the `$n` placeholder form (its
column quoted by the global `quote_identifier`, not the dialect's). -/
theorem c10_hardcoded_dollar_placeholders :
    (∀ (b : QueryBuilder) (params : QueryParams) (col : String) (t : Int),
        params.date_range.date_column = some col →
        b.is_column_safe col = true →
        params.date_range.date_after = some t →
        params.date_range.date_before = none →
        (b.with_date_range params).conditions
          = b.conditions ++ [col ++ " >= $" ++ toString (b.arguments.length + 1)])
      ∧ (∀ (b : QueryBuilder) (params : QueryParams) (col : String) (t : Int),
          params.date_range.date_column = some col →
          b.is_column_safe col = true →
          params.date_range.date_after = none →
          params.date_range.date_before = some t →
          (b.with_date_range params).conditions
            = b.conditions ++ [col ++ " <= $" ++ toString (b.arguments.length + 1)])
      ∧ (∀ (b : QueryBuilder) (col cond v : String),
          b.is_column_safe col = true →
          (b.with_condition col cond v).conditions
            = b.conditions
              ++ [quote_identifier col ++ " " ++ cond ++ " $"
                  ++ toString (b.arguments.length + 1)])
      ∧ ((QueryBuilder.newSqlite exampleColumns).with_date_range dateExampleParams).conditions
          = ["created_at >= $1"]
      ∧ sqliteDialect.placeholder 1 = "?"
      ∧ sqliteDialect.placeholder 5 = "?" := by
  refine ⟨?_, ?_, ?_, by decide, rfl, rfl⟩
  · intro b params col t hcol hsafe hafter hbefore
    unfold QueryBuilder.with_date_range
    rw [hcol]
    simp only [hcol, hsafe, hafter, hbefore, if_true]
  · intro b params col t hcol hsafe hafter hbefore
    unfold QueryBuilder.with_date_range
    rw [hcol]
    simp only [hcol, hsafe, hafter, hbefore, if_true]
  · intro b col cond v hsafe
    unfold QueryBuilder.with_condition
    rw [if_pos hsafe]

/-- Witness for C10 at the SQLite builder (placeholder token `?`) with
a concrete date lower bound. -/
theorem c10_hardcoded_dollar_placeholders_witness :
    dateExampleParams.date_range.date_column = some "created_at"
      ∧ ((QueryBuilder.newSqlite exampleColumns).with_date_range dateExampleParams).conditions
        = (QueryBuilder.newSqlite exampleColumns).conditions
          ++ ["created_at" ++ " >= $"
              ++ toString ((QueryBuilder.newSqlite exampleColumns).arguments.length + 1)] :=
  ⟨rfl,
   c10_hardcoded_dollar_placeholders.1 (QueryBuilder.newSqlite exampleColumns)
     dateExampleParams "created_at" 0 rfl (by decide) rfl rfl⟩

end SqlxPaginated
